import Mathlib

/-!
Shallow embedding of `src/formatting_layer.rs` from the
`tracing-bunyan-formatter` repository: the Bunyan-format record
construction and emission pipeline of `BunyanFormattingLayer`.

Pure record building is embedded as Lean functions producing ordered
lists of key/value entries, mirroring the sequence of
`serialize_entry` calls in the source.  Serialization, the writer
obtained per emission, and the `tracing` callback surface are embedded
with explicit state: serialization is fallible (serde's
`serialize_entry` returns a `Result`, abstracted by a configuration
saying which entries the serializer rejects), the sink is an explicit
operation trace, and a panic (`.expect`) is an `Except.error`.

The `JsonStorage` collaborator (`storage_layer.rs`) is not part of the
sources under verification; it is modelled from the spec as an ordered
mapping from field names to JSON values.
-/

set_option autoImplicit false

namespace Bunyan

/-- serde_json JSON values, as stored by the `JsonStorage` collaborator.
Modelled from the spec: the field store holds arbitrary JSON-compatible
values (`mapping<string, JSONValue>`); numbers are modelled as integers. -/
inductive Value where
  | null : Value
  | bool (b : Bool) : Value
  | num (n : Int) : Value
  | str (s : String) : Value
  | arr (xs : List Value) : Value
  | obj (fields : List (String × Value)) : Value
deriving Repr

/-- Modelled from the spec: the ordered `values()` accessor of the external
field-storage collaborator (`JsonStorage`), as an association list in the
collaborator's iteration order. -/
abbrev JsonStorageValues := List (String × Value)

/-- Modelled from the spec: map lookup on the collaborator's `values()`
accessor (first entry with the given key). -/
def getField (vals : JsonStorageValues) (k : String) : Option Value :=
  (vals.find? (fun p => p.1 == k)).map Prod.snd

/-- `tracing_core::metadata::Level`: the five severities. -/
inductive Level where
  | Error : Level
  | Warn : Level
  | Info : Level
  | Debug : Level
  | Trace : Level
deriving Repr, DecidableEq

/-- `log::Level`, the target of `tracing_log::AsLog`. -/
inductive LogLevel where
  | Error : LogLevel
  | Warn : LogLevel
  | Info : LogLevel
  | Debug : LogLevel
  | Trace : LogLevel
deriving Repr, DecidableEq

/-- `level.as_log()`: conversion from tracing levels to log levels. -/
def Level.as_log : Level → LogLevel
  | .Error => .Error
  | .Warn => .Warn
  | .Info => .Info
  | .Debug => .Debug
  | .Trace => .Trace

/-- Keys for core fields of the Bunyan format. -/
def BUNYAN_VERSION : String := "v"

def LEVEL : String := "level"

def NAME : String := "name"

def HOSTNAME : String := "hostname"

def PID : String := "pid"

def TIME : String := "time"

def MESSAGE : String := "msg"

/-- Reserved core-field key, unused by the layer (`_SOURCE` in the source). -/
def SOURCE : String := "src"

/-- Convert from log levels to Bunyan's levels (`to_bunyan_level`). -/
def to_bunyan_level (level : Level) : Nat :=
  match level.as_log with
  | LogLevel.Error => 50
  | LogLevel.Warn => 40
  | LogLevel.Info => 30
  | LogLevel.Debug => 20
  | LogLevel.Trace => 10

/-- The identity state of `BunyanFormattingLayer`, fixed at construction
(`make_writer` is modelled separately, as the sink-operation trace). -/
structure BunyanFormattingLayer where
  pid : Nat
  hostname : String
  bunyan_version : Nat
  name : String
deriving Repr, DecidableEq

/-- The data of one registered span that the layer reads: its metadata name
and level, and the `JsonStorage` extension when present
(`extensions.get::<JsonStorage>()`). -/
structure SpanData where
  name : String
  level : Level
  storage : Option JsonStorageValues
deriving Repr

/-- The data of one `tracing` event that the layer reads: metadata target and
level, plus the fields captured by `event.record(&mut event_visitor)` into a
fresh `JsonStorage` (modelled from the spec as an ordered mapping). -/
structure EventData where
  target : String
  level : Level
  fields : JsonStorageValues
deriving Repr

/-- The `tracing_subscriber` context handed to each callback: a span registry
(id to span data) and the current-span stack, innermost first. -/
structure Context where
  spans : List (Nat × SpanData)
  current : List SpanData
deriving Repr

/-- `ctx.span(id)`: resolve a span id through the registry. -/
def Context.span (ctx : Context) (id : Nat) : Option SpanData :=
  (ctx.spans.find? (fun p => p.1 == id)).map Prod.snd

/-- `ctx.lookup_current()`: the innermost active span, when any. -/
def Context.lookup_current (ctx : Context) : Option SpanData :=
  ctx.current.head?

/-- `Type` in the source: the kind of record being emitted.  (`Type` is a
Lean keyword, hence the shortened name.) -/
inductive Ty where
  | EnterSpan : Ty
  | ExitSpan : Ty
  | Event : Ty
deriving Repr, DecidableEq

/-- The `fmt::Display` implementation for `Type`. -/
def Ty.toString : Ty → String
  | .EnterSpan => "START"
  | .ExitSpan => "END"
  | .Event => "EVENT"

/-- `format_span_context`: consistent formatting of the span context,
for example "[AN_INTERESTING_SPAN - START]". -/
def format_span_context (span : SpanData) (ty : Ty) : String :=
  "[" ++ span.name.toUpper ++ " - " ++ Ty.toString ty ++ "]"

/-- `format_event_message`: extract the "message" field when provided and
string-valued, fall back to the target; prepend the span context when the
event happens inside a span.  Mirrors the source's
`get / map / flatten / unwrap_or_else` chain. -/
def format_event_message (current_span : Option SpanData) (event : EventData)
    (event_visitor : JsonStorageValues) : String :=
  let message :=
    (((getField event_visitor "message").map (fun v =>
        match v with
        | Value.str s => some s
        | _ => none)).join).getD event.target
  match current_span with
  | some span => format_span_context span Ty.Event ++ " " ++ message
  | none => message

/-- `serialize_bunyan_core_fields`: the seven core-field entries, in the
order of the `serialize_entry` calls.  `now` is the RFC3339 rendering of
the wall clock at emission time. -/
def serialize_bunyan_core_fields (l : BunyanFormattingLayer) (message : String)
    (level : Level) (now : String) : List (String × Value) :=
  [(BUNYAN_VERSION, Value.num l.bunyan_version),
   (NAME, Value.str l.name),
   (MESSAGE, Value.str message),
   (LEVEL, Value.num (to_bunyan_level level)),
   (HOSTNAME, Value.str l.hostname),
   (PID, Value.num l.pid),
   (TIME, Value.str now)]

/-- The contextual entries read from a span's `JsonStorage` extension: the
stored values when the extension is present, nothing otherwise. -/
def spanStorageFields (s : SpanData) : List (String × Value) :=
  match s.storage with
  | some vals => vals
  | none => []

/-- The contextual entries contributed by the current span in `on_event`:
nothing when the event is outside any span. -/
def currentSpanFields : Option SpanData → List (String × Value)
  | some s => spanStorageFields s
  | none => []

/-- The ordered entry list built by `serialize_span` for a span record:
core fields, then the span's stored fields. -/
def span_record (l : BunyanFormattingLayer) (s : SpanData) (ty : Ty)
    (now : String) : List (String × Value) :=
  serialize_bunyan_core_fields l (format_span_context s ty) s.level now
    ++ spanStorageFields s

/-- The ordered entry list built by the `format` closure of `on_event`:
core fields, then the event's own fields except "message", then the
current span's stored fields. -/
def event_record (l : BunyanFormattingLayer) (e : EventData)
    (current_span : Option SpanData) (now : String) : List (String × Value) :=
  serialize_bunyan_core_fields l (format_event_message current_span e e.fields)
      e.level now
    ++ e.fields.filter (fun p => p.1 ≠ "message")
    ++ currentSpanFields current_span

/-- One hexadecimal digit. -/
def hexDigit (n : Nat) : Char :=
  if n < 10 then Char.ofNat (48 + n) else Char.ofNat (87 + n)

/-- Four-digit hexadecimal rendering of a code point below 0x10000. -/
def hex4 (n : Nat) : String :=
  String.mk [hexDigit (n / 4096 % 16), hexDigit (n / 256 % 16),
             hexDigit (n / 16 % 16), hexDigit (n % 16)]

/-- serde_json string escaping for one character. -/
def escapeChar (c : Char) : String :=
  if c = '"' then "\\\""
  else if c = '\\' then "\\\\"
  else if c = '\x08' then "\\b"
  else if c = '\x0c' then "\\f"
  else if c = '\n' then "\\n"
  else if c = '\r' then "\\r"
  else if c = '\t' then "\\t"
  else if c.toNat < 32 then "\\u" ++ hex4 c.toNat
  else String.singleton c

/-- serde_json rendering of a JSON string, quotes included. -/
def jsonString (s : String) : String :=
  "\"" ++ String.join (s.data.map escapeChar) ++ "\""

mutual

/-- serde_json compact rendering of a value. -/
def serializeValue : Value → String
  | .null => "null"
  | .bool b => if b then "true" else "false"
  | .num n => ToString.toString n
  | .str s => jsonString s
  | .arr xs => "[" ++ String.intercalate "," (serializeValues xs) ++ "]"
  | .obj fs => "\x7b" ++ String.intercalate "," (serializeObjFields fs) ++ "\x7d"

/-- Rendering of the elements of a JSON array. -/
def serializeValues : List Value → List String
  | [] => []
  | v :: vs => serializeValue v :: serializeValues vs

/-- Rendering of the members of a JSON object. -/
def serializeObjFields : List (String × Value) → List String
  | [] => []
  | (k, v) :: fs => (jsonString k ++ ":" ++ serializeValue v) :: serializeObjFields fs

end

/-- Abstraction of the fallibility of serde's `serialize_entry`: `fails k v`
says that the underlying JSON serializer rejects the entry `(k, v)`. -/
structure SerCfg where
  fails : String → Value → Bool

/-- A serializer configuration under which every entry serializes. -/
def serAlwaysOk : SerCfg := SerCfg.mk (fun _ _ => false)

/-- A serializer configuration under which every entry is rejected. -/
def serAlwaysFails : SerCfg := SerCfg.mk (fun _ _ => true)

/-- The sequence of `serialize_entry` calls on a serde map serializer:
renders each entry in order, stopping with an error at the first entry the
serializer rejects. -/
def serializeEntries (cfg : SerCfg) : List (String × Value) → Except Unit (List String)
  | [] => Except.ok []
  | (k, v) :: rest =>
    if cfg.fails k v then Except.error ()
    else
      match serializeEntries cfg rest with
      | Except.ok tail => Except.ok ((jsonString k ++ ":" ++ serializeValue v) :: tail)
      | Except.error e => Except.error e

/-- `serialize_map(None)` followed by the entry writes and `end()`: the full
JSON object, or the error of the first rejected entry. -/
def serializeMap (cfg : SerCfg) (entries : List (String × Value)) : Except Unit String :=
  match serializeEntries cfg entries with
  | Except.ok parts => Except.ok ("\x7b" ++ String.intercalate "," parts ++ "\x7d")
  | Except.error e => Except.error e

/-- Operations performed on the configured writer factory and the writers it
yields: `make_writer` acquires a fresh writer, `writeAll s` is one
`write_all` call of the byte sequence `s` on the writer just acquired. -/
inductive SinkOp where
  | makeWriter : SinkOp
  | writeAll (bytes : String) : SinkOp
deriving Repr, DecidableEq

/-- Whether the writer produced by the factory fails its `write_all` call. -/
structure WriteCfg where
  writeFails : Bool
deriving Repr, DecidableEq

/-- `emit`: append a trailing newline to the in-memory buffer (a `Vec` write,
which cannot fail), then acquire a writer from `make_writer` and perform one
`write_all` of the whole buffer.  Returns the sink-operation trace and the
result the caller sees. -/
def emit (wcfg : WriteCfg) (buffer : String) : List SinkOp × Except Unit Unit :=
  let buffer := buffer ++ "\n"
  ([SinkOp.makeWriter, SinkOp.writeAll buffer],
   if wcfg.writeFails then Except.error () else Except.ok ())

/-- `on_event`: build and serialize the event record, then emit it when
serialization succeeded, discarding the emit result (`let _ = ...`).  The
returned value is `Except.error msg` for a panic (never taken here) and
`Except.ok trace` with the sink-operation trace otherwise. -/
def on_event (l : BunyanFormattingLayer) (scfg : SerCfg) (wcfg : WriteCfg)
    (e : EventData) (ctx : Context) (now : String) : Except String (List SinkOp) :=
  let current_span := ctx.lookup_current
  match serializeMap scfg (event_record l e current_span now) with
  | Except.ok formatted => Except.ok (emit wcfg formatted).1
  | Except.error _ => Except.ok []

/-- `on_enter`: resolve the span id (`.expect` panics when the registry has
no such span — modelled as `Except.error`), serialize the span record with
`Type::EnterSpan`, and emit it when serialization succeeded. -/
def on_enter (l : BunyanFormattingLayer) (scfg : SerCfg) (wcfg : WriteCfg)
    (id : Nat) (ctx : Context) (now : String) : Except String (List SinkOp) :=
  match ctx.span id with
  | none => Except.error "Span not found, this is a bug"
  | some span =>
    match serializeMap scfg (span_record l span Ty.EnterSpan now) with
    | Except.ok serialized => Except.ok (emit wcfg serialized).1
    | Except.error _ => Except.ok []

/-- `on_exit`: like `on_enter`, with `Type::ExitSpan`. -/
def on_exit (l : BunyanFormattingLayer) (scfg : SerCfg) (wcfg : WriteCfg)
    (id : Nat) (ctx : Context) (now : String) : Except String (List SinkOp) :=
  match ctx.span id with
  | none => Except.error "Span not found, this is a bug"
  | some span =>
    match serializeMap scfg (span_record l span Ty.ExitSpan now) with
    | Except.ok serialized => Except.ok (emit wcfg serialized).1
    | Except.error _ => Except.ok []

/-- MessageResolver as worded by the spec (§4.3): use the string-valued
`message` field when present, otherwise the fallback label; prefix with the
Event-kind span context when a current span exists. -/
def resolveSpec (currentSpan : Option SpanData) (eventFields : JsonStorageValues)
    (eventFallbackLabel : String) : String :=
  let base :=
    match getField eventFields "message" with
    | some (Value.str s) => s
    | _ => eventFallbackLabel
  match currentSpan with
  | some sp => format_span_context sp Ty.Event ++ " " ++ base
  | none => base

/-! Concrete fixtures used by witnesses and counterexamples. -/

/-- A concrete layer instance. -/
def layer0 : BunyanFormattingLayer := BunyanFormattingLayer.mk 1234 "host" 0 "test_app"

/-- A concrete span with one stored field. -/
def span0 : SpanData := SpanData.mk "req" Level.Info (some [("user_id", Value.num 7)])

/-- A concrete context: `span0` registered under id 1 and currently entered. -/
def ctx0 : Context := Context.mk [(1, span0)] [span0]

/-- A concrete event with a string `message` field and one other field. -/
def event0 : EventData :=
  EventData.mk "my_target" Level.Info
    [("message", Value.str "hi"), ("k", Value.bool true)]

/-- C7: the severity-to-code mapping is total and pure (a Lean function),
returning exactly 50, 40, 30, 20 and 10 for Error, Warn, Info, Debug and
Trace. -/
theorem to_bunyan_level_table :
    to_bunyan_level Level.Error = 50 ∧ to_bunyan_level Level.Warn = 40 ∧
    to_bunyan_level Level.Info = 30 ∧ to_bunyan_level Level.Debug = 20 ∧
    to_bunyan_level Level.Trace = 10 := by
  decide

/-- C8: for every span name and each record kind, the span-context label is
"[" ++ uppercase(name) ++ " - " ++ TAG ++ "]" with TAG = START for
span-enter, END for span-exit and EVENT for events. -/
theorem format_span_context_shape (s : SpanData) :
    format_span_context s Ty.EnterSpan = "[" ++ s.name.toUpper ++ " - " ++ "START" ++ "]"
    ∧ format_span_context s Ty.ExitSpan = "[" ++ s.name.toUpper ++ " - " ++ "END" ++ "]"
    ∧ format_span_context s Ty.Event = "[" ++ s.name.toUpper ++ " - " ++ "EVENT" ++ "]" :=
  ⟨rfl, rfl, rfl⟩

/-- C5: the resolved event message equals the spec's MessageResolver: the
string value of the `message` field when one exists, otherwise the target,
prefixed by the Event-kind span-context label and a space when a current
span is active. -/
theorem format_event_message_follows_spec (cs : Option SpanData) (e : EventData)
    (visitor : JsonStorageValues) :
    format_event_message cs e visitor = resolveSpec cs visitor e.target := by
  unfold format_event_message resolveSpec
  cases h : getField visitor "message" with
  | none => cases cs <;> simp [h]
  | some v => cases v <;> cases cs <;> simp [h]

/-- C1: every record (span-enter, span-exit, event) carries the seven core
fields keyed `v`, `name`, `msg`, `level`, `hostname`, `pid`, `time`, in that
order, and all contextual fields come after them. -/
theorem core_fields_first (l : BunyanFormattingLayer) (s : SpanData) (ty : Ty)
    (e : EventData) (cs : Option SpanData) (now : String) :
    (span_record l s ty now).map Prod.fst
      = ["v", "name", "msg", "level", "hostname", "pid", "time"]
          ++ (spanStorageFields s).map Prod.fst
    ∧ (event_record l e cs now).map Prod.fst
      = ["v", "name", "msg", "level", "hostname", "pid", "time"]
          ++ (e.fields.filter (fun p => p.1 ≠ "message")
                ++ currentSpanFields cs).map Prod.fst := by
  constructor <;>
    simp [span_record, event_record, serialize_bunyan_core_fields,
      BUNYAN_VERSION, NAME, MESSAGE, LEVEL, HOSTNAME, PID, TIME]

/-- C6: the contextual fields of an event record are the event's own fields
minus `message`, in stored order, then the innermost current span's stored
fields; ancestor spans beyond the innermost one contribute nothing, whatever
the rest of the span stack holds. -/
theorem event_contextual_fields (l : BunyanFormattingLayer) (e : EventData)
    (now : String) (ctx : Context) :
    ((event_record l e ctx.lookup_current now).drop 7
        = e.fields.filter (fun p => p.1 ≠ "message")
            ++ currentSpanFields ctx.lookup_current)
    ∧ ∀ sp rest,
        (event_record l e (Context.lookup_current (Context.mk ctx.spans (sp :: rest))) now).drop 7
          = e.fields.filter (fun p => p.1 ≠ "message") ++ spanStorageFields sp := by
  constructor
  · simp [event_record, serialize_bunyan_core_fields]
  · intro sp rest
    simp [event_record, serialize_bunyan_core_fields, Context.lookup_current,
      currentSpanFields]

/-- C2: when serialization succeeds, each callback appends exactly one
newline to the serialized JSON object and performs exactly one `write_all`
of the complete buffer on a writer acquired from the factory for that one
emission: the sink trace is exactly one `makeWriter` followed by one
`writeAll` of the object plus `"\n"`. -/
theorem single_write_per_record (l : BunyanFormattingLayer) (scfg : SerCfg)
    (wcfg : WriteCfg) (e : EventData) (ctx : Context) (id : Nat) (s : SpanData)
    (now bufE bufN bufX : String)
    (hid : ctx.span id = some s)
    (hE : serializeMap scfg (event_record l e ctx.lookup_current now) = Except.ok bufE)
    (hN : serializeMap scfg (span_record l s Ty.EnterSpan now) = Except.ok bufN)
    (hX : serializeMap scfg (span_record l s Ty.ExitSpan now) = Except.ok bufX) :
    on_event l scfg wcfg e ctx now
      = Except.ok [SinkOp.makeWriter, SinkOp.writeAll (bufE ++ "\n")]
    ∧ on_enter l scfg wcfg id ctx now
      = Except.ok [SinkOp.makeWriter, SinkOp.writeAll (bufN ++ "\n")]
    ∧ on_exit l scfg wcfg id ctx now
      = Except.ok [SinkOp.makeWriter, SinkOp.writeAll (bufX ++ "\n")] := by
  refine ⟨?_, ?_, ?_⟩ <;>
    simp [on_event, on_enter, on_exit, emit, hid, hE, hN, hX]

/-- The serialized event record of the C2 witness. -/
def bufE0 : String :=
  (serializeMap serAlwaysOk (event_record layer0 event0 ctx0.lookup_current "T")).toOption.getD ""

/-- The serialized span-enter record of the C2 witness. -/
def bufN0 : String :=
  (serializeMap serAlwaysOk (span_record layer0 span0 Ty.EnterSpan "T")).toOption.getD ""

/-- The serialized span-exit record of the C2 witness. -/
def bufX0 : String :=
  (serializeMap serAlwaysOk (span_record layer0 span0 Ty.ExitSpan "T")).toOption.getD ""

/-- Witness for C2 at the concrete fixtures. -/
theorem single_write_per_record_witness :
    on_event layer0 serAlwaysOk (WriteCfg.mk false) event0 ctx0 "T"
      = Except.ok [SinkOp.makeWriter, SinkOp.writeAll (bufE0 ++ "\n")]
    ∧ on_enter layer0 serAlwaysOk (WriteCfg.mk false) 1 ctx0 "T"
      = Except.ok [SinkOp.makeWriter, SinkOp.writeAll (bufN0 ++ "\n")]
    ∧ on_exit layer0 serAlwaysOk (WriteCfg.mk false) 1 ctx0 "T"
      = Except.ok [SinkOp.makeWriter, SinkOp.writeAll (bufX0 ++ "\n")] :=
  single_write_per_record layer0 serAlwaysOk (WriteCfg.mk false) event0 ctx0 1 span0
    "T" bufE0 bufN0 bufX0 rfl rfl rfl rfl

/-- C3: serialization and write failures stay inside the callbacks: for any
serializer and writer behavior the callbacks return normally (no panic), and
when serialization fails the sink trace is empty — not a single byte reaches
the sink for that record. -/
theorem emission_errors_contained (l : BunyanFormattingLayer) (scfg scfgF : SerCfg)
    (wcfg : WriteCfg) (e : EventData) (ctx : Context) (id : Nat) (s : SpanData)
    (now : String)
    (hid : ctx.span id = some s)
    (hfe : serializeMap scfgF (event_record l e ctx.lookup_current now) = Except.error ())
    (hfn : serializeMap scfgF (span_record l s Ty.EnterSpan now) = Except.error ())
    (hfx : serializeMap scfgF (span_record l s Ty.ExitSpan now) = Except.error ()) :
    (∃ t, on_event l scfg wcfg e ctx now = Except.ok t)
    ∧ (∃ t, on_enter l scfg wcfg id ctx now = Except.ok t)
    ∧ (∃ t, on_exit l scfg wcfg id ctx now = Except.ok t)
    ∧ on_event l scfgF wcfg e ctx now = Except.ok []
    ∧ on_enter l scfgF wcfg id ctx now = Except.ok []
    ∧ on_exit l scfgF wcfg id ctx now = Except.ok [] := by
  refine ⟨?_, ?_, ?_, ?_, ?_, ?_⟩
  · cases h : serializeMap scfg (event_record l e ctx.lookup_current now) with
    | ok b => exact ⟨(emit wcfg b).1, by simp [on_event, h]⟩
    | error u => exact ⟨[], by simp [on_event, h]⟩
  · cases h : serializeMap scfg (span_record l s Ty.EnterSpan now) with
    | ok b => exact ⟨(emit wcfg b).1, by simp [on_enter, hid, h]⟩
    | error u => exact ⟨[], by simp [on_enter, hid, h]⟩
  · cases h : serializeMap scfg (span_record l s Ty.ExitSpan now) with
    | ok b => exact ⟨(emit wcfg b).1, by simp [on_exit, hid, h]⟩
    | error u => exact ⟨[], by simp [on_exit, hid, h]⟩
  · simp [on_event, hfe]
  · simp [on_enter, hid, hfn]
  · simp [on_exit, hid, hfx]

/-- Witness for C3 at the concrete fixtures, with a writer that fails and a
serializer that rejects every entry. -/
theorem emission_errors_contained_witness :
    (∃ t, on_event layer0 serAlwaysOk (WriteCfg.mk true) event0 ctx0 "T" = Except.ok t)
    ∧ (∃ t, on_enter layer0 serAlwaysOk (WriteCfg.mk true) 1 ctx0 "T" = Except.ok t)
    ∧ (∃ t, on_exit layer0 serAlwaysOk (WriteCfg.mk true) 1 ctx0 "T" = Except.ok t)
    ∧ on_event layer0 serAlwaysFails (WriteCfg.mk true) event0 ctx0 "T" = Except.ok []
    ∧ on_enter layer0 serAlwaysFails (WriteCfg.mk true) 1 ctx0 "T" = Except.ok []
    ∧ on_exit layer0 serAlwaysFails (WriteCfg.mk true) 1 ctx0 "T" = Except.ok [] :=
  emission_errors_contained layer0 serAlwaysOk serAlwaysFails (WriteCfg.mk true)
    event0 ctx0 1 span0 "T" rfl rfl rfl rfl

/-- C9: a span id the registry cannot resolve makes `on_enter` and `on_exit`
panic with "Span not found, this is a bug"; no record is emitted for it. -/
theorem unresolvable_span_fatal (l : BunyanFormattingLayer) (scfg : SerCfg)
    (wcfg : WriteCfg) (id : Nat) (ctx : Context) (now : String)
    (h : ctx.span id = none) :
    on_enter l scfg wcfg id ctx now = Except.error "Span not found, this is a bug"
    ∧ on_exit l scfg wcfg id ctx now = Except.error "Span not found, this is a bug"
    ∧ (∀ t, on_enter l scfg wcfg id ctx now ≠ Except.ok t)
    ∧ (∀ t, on_exit l scfg wcfg id ctx now ≠ Except.ok t) := by
  refine ⟨?_, ?_, ?_, ?_⟩ <;> simp [on_enter, on_exit, h]

/-- Witness for C9: an empty registry cannot resolve id 1. -/
theorem unresolvable_span_fatal_witness :
    (Context.mk [] []).span 1 = none
    ∧ (on_enter layer0 serAlwaysOk (WriteCfg.mk false) 1 (Context.mk [] []) "T"
        = Except.error "Span not found, this is a bug"
      ∧ on_exit layer0 serAlwaysOk (WriteCfg.mk false) 1 (Context.mk [] []) "T"
        = Except.error "Span not found, this is a bug"
      ∧ (∀ t, on_enter layer0 serAlwaysOk (WriteCfg.mk false) 1 (Context.mk [] []) "T"
          ≠ Except.ok t)
      ∧ (∀ t, on_exit layer0 serAlwaysOk (WriteCfg.mk false) 1 (Context.mk [] []) "T"
          ≠ Except.ok t)) :=
  ⟨rfl, unresolvable_span_fatal layer0 serAlwaysOk (WriteCfg.mk false) 1
    (Context.mk [] []) "T" rfl⟩

/-- C4 counterexample input: a span whose storage itself holds a
`message`-keyed field. -/
def spanMsg : SpanData := SpanData.mk "req" Level.Info (some [("message", Value.str "sneaky")])

/-- C4 counterexample: with a current span whose storage holds a
`message`-keyed field, the key `message` does appear among the record's
contextual fields even though the event's own `message` field was consumed. -/
theorem message_key_among_contextual_fields :
    "message" ∈ ((event_record layer0
        (EventData.mk "my_target" Level.Info [("message", Value.str "hi")])
        (some spanMsg) "T").drop 7).map Prod.fst := by
  decide

/-- C4 (amended): the event's `message` field is consumed by message
resolution and excluded from the copy of the event's own fields — the key
`message` never appears among the contextual fields contributed by the event
itself, and its string value is carried by the `msg` core field (span-stored
fields, copied unfiltered after them, may still introduce a `message` key). -/
theorem message_field_consumed (l : BunyanFormattingLayer) (e : EventData)
    (cs : Option SpanData) (now s : String)
    (hmsg : getField e.fields "message" = some (Value.str s)) :
    "message" ∉ (e.fields.filter (fun p => p.1 ≠ "message")).map Prod.fst
    ∧ event_record l e cs now
        = serialize_bunyan_core_fields l (format_event_message cs e e.fields) e.level now
            ++ e.fields.filter (fun p => p.1 ≠ "message")
            ++ currentSpanFields cs
    ∧ format_event_message cs e e.fields
        = (match cs with
           | some sp => format_span_context sp Ty.Event ++ " " ++ s
           | none => s) := by
  refine ⟨?_, rfl, ?_⟩
  · simp
  · unfold format_event_message
    rw [hmsg]
    cases cs <;> simp

/-- Witness for C4 (amended) at the concrete fixtures. -/
theorem message_field_consumed_witness :
    getField event0.fields "message" = some (Value.str "hi")
    ∧ ("message" ∉ (event0.fields.filter (fun p => p.1 ≠ "message")).map Prod.fst
      ∧ event_record layer0 event0 (some span0) "T"
          = serialize_bunyan_core_fields layer0
              (format_event_message (some span0) event0 event0.fields) event0.level "T"
              ++ event0.fields.filter (fun p => p.1 ≠ "message")
              ++ currentSpanFields (some span0)
      ∧ format_event_message (some span0) event0 event0.fields
          = format_span_context span0 Ty.Event ++ " " ++ "hi") :=
  ⟨rfl, message_field_consumed layer0 event0 (some span0) "T" "hi" rfl⟩

/-- C10 counterexample input: an event whose `message` field is the number
30, colliding with the Info level code. -/
def eventNum : EventData := EventData.mk "tgt" Level.Info [("message", Value.num 30)]

/-- C10 counterexample: the non-string `message` value `30` does appear in
the emitted record — as the value of the `level` core field — so it is not
true that the value appears nowhere in the record. -/
theorem nonstring_message_value_appears :
    getField eventNum.fields "message" = some (Value.num 30)
    ∧ (∀ s, Value.num 30 ≠ Value.str s)
    ∧ Value.num 30 ∈ (event_record layer0 eventNum none "T").map Prod.snd := by
  refine ⟨rfl, fun s h => Value.noConfusion h, ?_⟩
  simp [event_record, serialize_bunyan_core_fields, currentSpanFields,
    to_bunyan_level, Level.as_log, layer0, eventNum]

/-- C10 (amended): for an event whose `message` field holds a non-string
value, `msg` is derived from the target (span-prefixed when inside a span),
no `message`-keyed entry survives the copy of the event's own fields, and no
`message`-keyed entry carrying that value appears anywhere in the record
unless the span storage itself contains one (the bare value may still occur
elsewhere, e.g. as a core-field value). -/
theorem nonstring_message_excluded (l : BunyanFormattingLayer) (e : EventData)
    (cs : Option SpanData) (now : String) (v : Value)
    (hmsg : getField e.fields "message" = some v)
    (hns : ∀ s, v ≠ Value.str s)
    (hspan : ("message", v) ∉ currentSpanFields cs) :
    format_event_message cs e e.fields
      = (match cs with
         | some sp => format_span_context sp Ty.Event ++ " " ++ e.target
         | none => e.target)
    ∧ (∀ w, ("message", w) ∉ e.fields.filter (fun p => p.1 ≠ "message"))
    ∧ ("message", v) ∉ event_record l e cs now := by
  refine ⟨?_, ?_, ?_⟩
  · unfold format_event_message
    rw [hmsg]
    cases v with
    | str s => exact absurd rfl (hns s)
    | null => cases cs <;> simp
    | bool b => cases cs <;> simp
    | num n => cases cs <;> simp
    | arr xs => cases cs <;> simp
    | obj fs => cases cs <;> simp
  · intro w hw
    simp at hw
  · intro h
    simp only [event_record, serialize_bunyan_core_fields, List.mem_append,
      List.mem_cons] at h
    rcases h with ((h | h | h | h | h | h | h | h) | h) | h
    all_goals first
      | (exact absurd (congrArg Prod.fst h) (by simp [BUNYAN_VERSION, NAME,
          MESSAGE, LEVEL, HOSTNAME, PID, TIME]))
      | (exact absurd h (by simp))
      | (exact absurd h hspan)

/-- C10 witness input: an event whose `message` field is a boolean. -/
def eventNS : EventData := EventData.mk "tgt" Level.Warn [("message", Value.bool true)]

/-- Witness for C10 (amended) at the concrete fixtures. -/
theorem nonstring_message_excluded_witness :
    getField eventNS.fields "message" = some (Value.bool true)
    ∧ (format_event_message none eventNS eventNS.fields = eventNS.target
      ∧ (∀ w, ("message", w) ∉ eventNS.fields.filter (fun p => p.1 ≠ "message"))
      ∧ ("message", Value.bool true) ∉ event_record layer0 eventNS none "T") :=
  ⟨rfl, nonstring_message_excluded layer0 eventNS none "T" (Value.bool true) rfl
    (fun s h => Value.noConfusion h) (by simp [currentSpanFields])⟩

end Bunyan
